import Mathlib

/-!
Verification of the core ray tracer of this repository (`src/main.rs`,
`src/block.rs`): axis-aligned-box slab intersection, shadow test, and the
recursive Whitted-style shader `cast_ray`.

Embedding conventions: `f32` values are modelled as exact real numbers.
The slab intersection in `block.rs` depends on IEEE special values
(division of a nonzero number by zero yields an infinity, multiplication
of zero by an infinity yields a NaN, `f32::min`/`f32::max` drop NaN
operands, comparisons involving NaN are false), so the arithmetic inside
`Block.rayIntersect` is carried out in the type `FP` of reals extended
with `+inf`, `-inf` and `NaN`.  The model has no signed zero and no
rounding; no claim below depends on either.
-/

noncomputable section

open Classical

/-- A 3-component vector of reals, modelling `nalgebra_glm::Vec3` (a
collaborator primitive of the repository: componentwise add/sub/neg,
scalar multiplication, dot product, Euclidean magnitude, normalization). -/
structure Vec3 where
  x : ℝ
  y : ℝ
  z : ℝ
deriving DecidableEq

namespace Vec3

def add (a b : Vec3) : Vec3 := ⟨a.x + b.x, a.y + b.y, a.z + b.z⟩

def sub (a b : Vec3) : Vec3 := ⟨a.x - b.x, a.y - b.y, a.z - b.z⟩

def neg (a : Vec3) : Vec3 := ⟨-a.x, -a.y, -a.z⟩

def smul (r : ℝ) (a : Vec3) : Vec3 := ⟨r * a.x, r * a.y, r * a.z⟩

def dot (a b : Vec3) : ℝ := a.x * b.x + a.y * b.y + a.z * b.z

/-- Euclidean magnitude, `Vec3::magnitude`. -/
def mag (a : Vec3) : ℝ := Real.sqrt (a.dot a)

/-- `Vec3::normalize`: the vector scaled by the reciprocal of its
magnitude (for the zero vector the model yields the zero vector). -/
def normalize (a : Vec3) : Vec3 := smul (1 / a.mag) a

end Vec3

instance : Add Vec3 := ⟨Vec3.add⟩
instance : Sub Vec3 := ⟨Vec3.sub⟩
instance : Neg Vec3 := ⟨Vec3.neg⟩
instance : SMul ℝ Vec3 := ⟨Vec3.smul⟩

@[simp] theorem Vec3.add_def (a b : Vec3) :
    a + b = ⟨a.x + b.x, a.y + b.y, a.z + b.z⟩ := rfl

@[simp] theorem Vec3.sub_def (a b : Vec3) :
    a - b = ⟨a.x - b.x, a.y - b.y, a.z - b.z⟩ := rfl

@[simp] theorem Vec3.neg_def (a : Vec3) : -a = ⟨-a.x, -a.y, -a.z⟩ := rfl

@[simp] theorem Vec3.smul_def (r : ℝ) (a : Vec3) :
    r • a = ⟨r * a.x, r * a.y, r * a.z⟩ := rfl

/-- Extended reals with IEEE-style special values, used to carry out the
`f32` arithmetic of the slab test in `block.rs` exactly. -/
inductive FP where
  | nan : FP
  | ninf : FP
  | pinf : FP
  | fin (x : ℝ) : FP
deriving DecidableEq

namespace FP

/-- IEEE `<` on `FP`: any comparison involving NaN is false. -/
def lt : FP → FP → Prop
  | fin a, fin b => a < b
  | fin _, pinf => True
  | ninf, fin _ => True
  | ninf, pinf => True
  | _, _ => False

/-- IEEE `<=` on `FP`: any comparison involving NaN is false. -/
def le : FP → FP → Prop
  | fin a, fin b => a ≤ b
  | fin _, pinf => True
  | ninf, ninf => True
  | ninf, fin _ => True
  | ninf, pinf => True
  | pinf, pinf => True
  | _, _ => False

/-- `f32::min` (IEEE minNum): if one operand is NaN the other is
returned, otherwise the smaller operand. -/
def fmin : FP → FP → FP
  | nan, y => y
  | x, nan => x
  | ninf, _ => ninf
  | _, ninf => ninf
  | pinf, y => y
  | x, pinf => x
  | fin a, fin b => fin (min a b)

/-- `f32::max` (IEEE maxNum): if one operand is NaN the other is
returned, otherwise the larger operand. -/
def fmax : FP → FP → FP
  | nan, y => y
  | x, nan => x
  | pinf, _ => pinf
  | _, pinf => pinf
  | ninf, y => y
  | x, ninf => x
  | fin a, fin b => fin (max a b)

/-- Multiplication of a finite real by an `FP` value (the only product the
slab test needs): a finite nonzero number times an infinity is a signed
infinity, zero times an infinity is NaN. -/
def mulRF (a : ℝ) : FP → FP
  | fin b => fin (a * b)
  | pinf => if a = 0 then nan else if 0 < a then pinf else ninf
  | ninf => if a = 0 then nan else if 0 < a then ninf else pinf
  | nan => nan

/-- IEEE reciprocal `1.0 / a` of a finite real: `1.0 / 0.0 = +inf`
(the model has no negative zero). -/
def inv (a : ℝ) : FP := if a = 0 then pinf else fin (1 / a)

/-- The real carried by a finite `FP` value (junk value 0 otherwise; only
ever read after the slab test has established finiteness). -/
def toReal : FP → ℝ
  | fin x => x
  | _ => 0

end FP

/-- Modelled from the spec: `Color` (its module `color.rs` is not under
`src/`) — three channels supporting addition and scalar multiplication;
saturation happens only at display packing, which is not modelled. -/
structure Color where
  r : ℝ
  g : ℝ
  b : ℝ
deriving DecidableEq

namespace Color

def cadd (a c : Color) : Color := ⟨a.r + c.r, a.g + c.g, a.b + c.b⟩

/-- Scalar multiplication `Color * f32`. -/
def mulS (c : Color) (s : ℝ) : Color := ⟨c.r * s, c.g * s, c.b * s⟩

def black : Color := ⟨0, 0, 0⟩

end Color

/-- Modelled from the spec: `Material` (its module `material.rs` is not
under `src/`) — diffuse color, specular exponent, the four albedo
weights, refractive index. -/
structure Material where
  diffuse : Color
  specular : ℝ
  albedo0 : ℝ
  albedo1 : ℝ
  albedo2 : ℝ
  albedo3 : ℝ
  refractiveIndex : ℝ
deriving DecidableEq

def Material.zero : Material := ⟨Color.black, 0, 0, 0, 0, 0, 0⟩

/-- Modelled from the spec: `Intersect` (its module `ray_intersect.rs` is
not under `src/`) — result of a ray/box test. -/
structure Intersect where
  isIntersecting : Bool
  point : Vec3
  normal : Vec3
  distance : ℝ
  material : Material

/-- Modelled from the spec: the empty sentinel `Intersect::empty()` has
`is_intersecting = false`; its other fields are unspecified and never
read by callers (the model fills them with zeros). -/
def Intersect.empty : Intersect := ⟨false, ⟨0, 0, 0⟩, ⟨0, 0, 0⟩, 0, Material.zero⟩

/-- Modelled from the spec: `Light` (its module `light.rs` is not under
`src/`) — single point light. -/
structure Light where
  position : Vec3
  color : Color
  intensity : ℝ

/-- `Block` from `src/block.rs`: an axis-aligned box. -/
structure Block where
  minCorner : Vec3
  maxCorner : Vec3
  material : Material

namespace Block

/-- `Block::get_normal` from `src/block.rs`: classify the hit point
against the six face planes in the fixed priority order
-x, +x, -y, +y, -z, default +z, with tolerance 1e-3. -/
def getNormal (b : Block) (point : Vec3) : Vec3 :=
  if |point.x - b.minCorner.x| < 0.001 then ⟨-1, 0, 0⟩
  else if |point.x - b.maxCorner.x| < 0.001 then ⟨1, 0, 0⟩
  else if |point.y - b.minCorner.y| < 0.001 then ⟨0, -1, 0⟩
  else if |point.y - b.maxCorner.y| < 0.001 then ⟨0, 1, 0⟩
  else if |point.z - b.minCorner.z| < 0.001 then ⟨0, 0, -1⟩
  else ⟨0, 0, 1⟩

/-- The overall slab entry parameter `t_near` of
`Block::ray_intersect` (`src/block.rs` lines 13-25): componentwise
`t_min = (min_corner - origin) * inv_dir`, `t_max = (max_corner - origin)
* inv_dir`, `t1 = min(t_min, t_max)` per axis, `t_near =
t1.x.max(t1.y).max(t1.z)`. -/
def tNear (b : Block) (o d : Vec3) : FP :=
  let tminx := FP.mulRF (b.minCorner.x - o.x) (FP.inv d.x)
  let tminy := FP.mulRF (b.minCorner.y - o.y) (FP.inv d.y)
  let tminz := FP.mulRF (b.minCorner.z - o.z) (FP.inv d.z)
  let tmaxx := FP.mulRF (b.maxCorner.x - o.x) (FP.inv d.x)
  let tmaxy := FP.mulRF (b.maxCorner.y - o.y) (FP.inv d.y)
  let tmaxz := FP.mulRF (b.maxCorner.z - o.z) (FP.inv d.z)
  FP.fmax (FP.fmax (FP.fmin tminx tmaxx) (FP.fmin tminy tmaxy)) (FP.fmin tminz tmaxz)

/-- The overall slab exit parameter `t_far` of `Block::ray_intersect`
(`src/block.rs` lines 13-26): per-axis `t2 = max(t_min, t_max)`,
`t_far = t2.x.min(t2.y).min(t2.z)`. -/
def tFar (b : Block) (o d : Vec3) : FP :=
  let tminx := FP.mulRF (b.minCorner.x - o.x) (FP.inv d.x)
  let tminy := FP.mulRF (b.minCorner.y - o.y) (FP.inv d.y)
  let tminz := FP.mulRF (b.minCorner.z - o.z) (FP.inv d.z)
  let tmaxx := FP.mulRF (b.maxCorner.x - o.x) (FP.inv d.x)
  let tmaxy := FP.mulRF (b.maxCorner.y - o.y) (FP.inv d.y)
  let tmaxz := FP.mulRF (b.maxCorner.z - o.z) (FP.inv d.z)
  FP.fmin (FP.fmin (FP.fmax tminx tmaxx) (FP.fmax tminy tmaxy)) (FP.fmax tminz tmaxz)

/-- `Block::ray_intersect` from `src/block.rs`: hit iff `t_near > 0.0 &&
t_near < t_far`; on a hit, `point = ray_origin + ray_direction * t_near`,
the normal comes from `get_normal`, `distance = t_near`; otherwise the
empty sentinel.  (In the hit branch `t_near` is necessarily finite, so
taking `FP.toReal` is exact.) -/
def rayIntersect (b : Block) (o d : Vec3) : Intersect :=
  if FP.lt (FP.fin 0) (b.tNear o d) ∧ FP.lt (b.tNear o d) (b.tFar o d) then
    let t := (b.tNear o d).toReal
    let point := o + t • d
    ⟨true, point, b.getNormal point, t, b.material⟩
  else Intersect.empty

end Block

/-- `ORIGIN_BIAS` from `src/main.rs` line 22. -/
def ORIGIN_BIAS : ℝ := 1e-4

/-- `SKYBOX_COLOR` from `src/main.rs` line 23: `Color::new(68, 142, 228)`. -/
def SKYBOX_COLOR : Color := ⟨68, 142, 228⟩

/-- `offset_origin` from `src/main.rs` lines 25-32: displace the hit point
by `ORIGIN_BIAS` along the normal, subtracting the offset when
`direction.dot(normal) < 0.0` and adding it otherwise. -/
def offsetOrigin (i : Intersect) (direction : Vec3) : Vec3 :=
  let offset := ORIGIN_BIAS • i.normal
  if direction.dot i.normal < 0 then i.point - offset else i.point + offset

/-- `reflect` from `src/main.rs` lines 34-36:
`incident - 2.0 * incident.dot(normal) * normal`. -/
def reflect (incident normal : Vec3) : Vec3 :=
  incident - (2 * incident.dot normal) • normal

/-- The clamped incidence cosine of `refract` (`src/main.rs` line 39):
`-incident.dot(normal).max(-1.0).min(1.0)`. -/
def refractCosi (incident normal : Vec3) : ℝ :=
  -(min (max (incident.dot normal) (-1)) 1)

/-- The oriented normal chosen by `refract` (`src/main.rs` lines 43-51):
the negated normal when `cosi < 0.0` (ray exiting), the normal itself
otherwise. -/
def refractNormal (incident normal : Vec3) : Vec3 :=
  if refractCosi incident normal < 0 then -normal else normal

/-- The nonnegative incidence cosine `n_cosi` of `refract`. -/
def refractNCosi (incident normal : Vec3) : ℝ :=
  if refractCosi incident normal < 0 then -(refractCosi incident normal)
  else refractCosi incident normal

/-- The relative index `eta` chosen by `refract`: inverted when the ray
exits the medium (`cosi < 0.0`). -/
def refractEta (incident normal : Vec3) (etaT : ℝ) : ℝ :=
  if refractCosi incident normal < 0 then 1 / etaT else etaT

/-- The discriminant `k = 1.0 - eta * eta * (1.0 - n_cosi * n_cosi)` of
`refract` (`src/main.rs` line 53). -/
def refractK (incident normal : Vec3) (etaT : ℝ) : ℝ :=
  1 - refractEta incident normal etaT * refractEta incident normal etaT *
    (1 - refractNCosi incident normal * refractNCosi incident normal)

/-- `refract` from `src/main.rs` lines 38-60: Snell refraction; on a
negative discriminant (total internal reflection) the reflected direction
about the oriented normal is returned instead. -/
def refract (incident normal : Vec3) (etaT : ℝ) : Vec3 :=
  if refractK incident normal etaT < 0 then
    reflect incident (refractNormal incident normal)
  else
    refractEta incident normal etaT • incident +
      (refractEta incident normal etaT * refractNCosi incident normal -
        Real.sqrt (refractK incident normal etaT)) • refractNormal incident normal

/-- The loop of `cast_shadow` (`src/main.rs` lines 73-80): scan the
objects in sequence order; on the first object whose shadow-ray
intersection is closer than the light, set the shadow intensity to
`1.0 - (distance / light_distance).powf(2.0).min(1.0)` and stop. -/
def castShadowLoop (origin dir : Vec3) (lightDistance : ℝ) : List Block → ℝ
  | [] => 0
  | obj :: rest =>
    let si := obj.rayIntersect origin dir
    if si.isIntersecting = true ∧ si.distance < lightDistance then
      1 - min ((si.distance / lightDistance) ^ 2) 1
    else castShadowLoop origin dir lightDistance rest

/-- `light_dir` as computed by `cast_shadow`/`cast_ray`: the normalized
direction from the hit point to the light. -/
def lightDirOf (i : Intersect) (light : Light) : Vec3 :=
  (light.position - i.point).normalize

/-- `light_distance` as computed by `cast_shadow` (`src/main.rs` line 68). -/
def lightDistOf (i : Intersect) (light : Light) : ℝ :=
  (light.position - i.point).mag

/-- `shadow_ray_origin` as computed by `cast_shadow` (`src/main.rs` line 70). -/
def shadowOriginOf (i : Intersect) (light : Light) : Vec3 :=
  offsetOrigin i (lightDirOf i light)

/-- `cast_shadow` from `src/main.rs` lines 62-83. -/
def castShadow (i : Intersect) (light : Light) (objects : List Block) : ℝ :=
  castShadowLoop (shadowOriginOf i light) (lightDirOf i light) (lightDistOf i light) objects

/-- One step of the nearest-hit scan of `cast_ray` (`src/main.rs` lines
99-105): the state is the current best `Intersect` together with the
`zbuffer` value (an `f32` initialized to infinity). -/
def scanStep (o d : Vec3) (acc : Intersect × FP) (obj : Block) : Intersect × FP :=
  let i := obj.rayIntersect o d
  if i.isIntersecting = true ∧ FP.lt (FP.fin i.distance) acc.2 then (i, FP.fin i.distance)
  else acc

/-- The nearest-intersection selection of `cast_ray` (`src/main.rs` lines
96-105): fold the scan step over the scene, starting from the empty
sentinel and `zbuffer = f32::INFINITY`. -/
def nearestHit (o d : Vec3) (objects : List Block) : Intersect :=
  (objects.foldl (scanStep o d) (Intersect.empty, FP.pinf)).1

/-- The diffuse term of `cast_ray` (`src/main.rs` lines 118-119):
`material.diffuse * albedo[0] * (normal.dot(light_dir).max(0.0).min(1.0))
* light_intensity`, with `light_dir` the normalized direction from the
hit point to the light. -/
def diffuseTerm (i : Intersect) (light : Light) (lightIntensity : ℝ) : Color :=
  let diffuseIntensity := min (max (i.normal.dot (lightDirOf i light)) 0) 1
  ((i.material.diffuse.mulS i.material.albedo0).mulS diffuseIntensity).mulS lightIntensity

/-- The specular term of `cast_ray` (`src/main.rs` lines 121-122);
`powf` is modelled by `Real.rpow`. -/
def specularTerm (i : Intersect) (light : Light) (o : Vec3) (lightIntensity : ℝ) : Color :=
  let viewDir := (o - i.point).normalize
  let reflectDir := (reflect (-(lightDirOf i light)) i.normal).normalize
  let specularIntensity := Real.rpow (max (viewDir.dot reflectDir) 0) i.material.specular
  ((light.color.mulS i.material.albedo1).mulS specularIntensity).mulS lightIntensity

/-- `cast_ray` from `src/main.rs` lines 85-142: depth guard, nearest-hit
scan, shadowed diffuse + specular shading, and recursive reflection and
refraction bounces composited by the albedo weights. -/
def castRay (o d : Vec3) (objects : List Block) (light : Light) (depth : ℕ) : Color :=
  if h : depth > 3 then SKYBOX_COLOR
  else
    let i := nearestHit o d objects
    if i.isIntersecting = false then SKYBOX_COLOR
    else
      let shadowIntensity := castShadow i light objects
      let lightIntensity := light.intensity * (1 - shadowIntensity)
      let diffuse := diffuseTerm i light lightIntensity
      let specular := specularTerm i light o lightIntensity
      let reflectivity := i.material.albedo2
      let reflectColor :=
        if reflectivity > 0 then
          let rdir := (reflect d i.normal).normalize
          castRay (offsetOrigin i rdir) rdir objects light (depth + 1)
        else Color.black
      let transparency := i.material.albedo3
      let refractColor :=
        if transparency > 0 then
          let tdir := refract d i.normal i.material.refractiveIndex
          castRay (offsetOrigin i tdir) tdir objects light (depth + 1)
        else Color.black
      (((diffuse.cadd specular).mulS (1 - reflectivity - transparency)).cadd
        (reflectColor.mulS reflectivity)).cadd (refractColor.mulS transparency)
termination_by 4 - depth
decreasing_by all_goals omega

/-- The number of recursive invocations of `cast_ray` performed by a call
at the given arguments: it mirrors the control flow of `castRay` exactly
(depth guard, nearest-hit scan, and the two guarded bounce branches,
each contributing one invocation plus the invocations of the callee). -/
def castRayCalls (o d : Vec3) (objects : List Block) (light : Light) (depth : ℕ) : ℕ :=
  if _h : depth > 3 then 0
  else
    let i := nearestHit o d objects
    if i.isIntersecting = false then 0
    else
      (if i.material.albedo2 > 0 then
        let rdir := (reflect d i.normal).normalize
        1 + castRayCalls (offsetOrigin i rdir) rdir objects light (depth + 1)
      else 0) +
      (if i.material.albedo3 > 0 then
        let tdir := refract d i.normal i.material.refractiveIndex
        1 + castRayCalls (offsetOrigin i tdir) tdir objects light (depth + 1)
      else 0)
termination_by 4 - depth
decreasing_by all_goals omega

/-! ### General lemmas about the embedded operations -/

theorem Vec3.dot_smul_right (a b : Vec3) (r : ℝ) :
    a.dot (Vec3.smul r b) = r * a.dot b := by
  simp [Vec3.dot, Vec3.smul]; ring

theorem Vec3.dot_sq_le (a b : Vec3) : (a.dot a) * (b.dot b) ≥ (a.dot b) ^ 2 := by
  simp only [Vec3.dot]
  nlinarith [sq_nonneg (a.x * b.y - a.y * b.x), sq_nonneg (a.x * b.z - a.z * b.x),
    sq_nonneg (a.y * b.z - a.z * b.y)]

theorem Vec3.dot_nonneg_self (a : Vec3) : 0 ≤ a.dot a := by
  simp only [Vec3.dot]
  nlinarith [sq_nonneg a.x, sq_nonneg a.y, sq_nonneg a.z]

/-- With a normal of unit dot square, the dot product with any normalized
vector is at most 1. -/
theorem dot_normalize_le_one (n v : Vec3) (hn : n.dot n = 1) :
    n.dot v.normalize ≤ 1 := by
  rw [Vec3.normalize, Vec3.dot_smul_right]
  rcases eq_or_lt_of_le (Real.sqrt_nonneg (v.dot v)) with h0 | hpos
  · rw [Vec3.mag, ← h0]
    simp
  · have hmag : v.mag = Real.sqrt (v.dot v) := rfl
    have hsq : v.mag ^ 2 = v.dot v := by
      rw [hmag, Real.sq_sqrt (Vec3.dot_nonneg_self v)]
    have hm : 0 < v.mag := by rw [hmag]; exact hpos
    have hle : n.dot v ≤ v.mag := by
      nlinarith [Vec3.dot_sq_le n v, hsq, hn, hm]
    rw [div_mul_eq_mul_div, one_mul, div_le_one hm]
    exact hle

theorem FP.le_not_lt : ∀ a b : FP, FP.le a b → ¬ FP.lt b a := by
  intro a b hab hba
  cases a <;> cases b <;> simp_all [FP.le, FP.lt]
  linarith

/-! ### Claim C1: the depth cap -/

/-- C1: for every scene, light, ray origin and ray direction, calling
`cast_ray` with `depth > 3` returns the fixed sky color immediately,
regardless of scene content. -/
theorem castRay_depth_cap (o d : Vec3) (objects : List Block) (light : Light)
    (depth : ℕ) (h : depth > 3) :
    castRay o d objects light depth = SKYBOX_COLOR := by
  rw [castRay]
  exact dif_pos h

/-- C1 witness: at `depth = 4` and a concrete nonempty scene the sky color
is returned. -/
theorem castRay_depth_cap_witness :
    (4 : ℕ) > 3 ∧
      castRay ⟨0, 0, 0⟩ ⟨0, 0, -1⟩
        [⟨⟨-1, -1, -1⟩, ⟨1, 1, 1⟩, Material.zero⟩]
        ⟨⟨1, 2, 5⟩, ⟨255, 255, 255⟩, 1⟩ 4 = SKYBOX_COLOR :=
  ⟨by norm_num, castRay_depth_cap _ _ _ _ 4 (by norm_num)⟩

/-! ### Claim C4: the origin-offset rule -/

/-- C4 counterexample: for the hit with normal `(0,0,1)` at the origin and
outgoing direction `(0,0,1)`, `direction ⬝ normal = 1 > 0` while the
displacement's component along the normal is `ORIGIN_BIAS > 0` as well —
the same sign, not the opposite sign the claim states. -/
theorem offsetOrigin_same_sign_counterexample :
    0 < (Vec3.mk 0 0 1).dot (Intersect.mk true ⟨0, 0, 0⟩ ⟨0, 0, 1⟩ 1 Material.zero).normal ∧
      (offsetOrigin ⟨true, ⟨0, 0, 0⟩, ⟨0, 0, 1⟩, 1, Material.zero⟩ ⟨0, 0, 1⟩ -
          (Intersect.mk true ⟨0, 0, 0⟩ ⟨0, 0, 1⟩ 1 Material.zero).point).dot
          (Intersect.mk true ⟨0, 0, 0⟩ ⟨0, 0, 1⟩ 1 Material.zero).normal = ORIGIN_BIAS ∧
      ¬ (offsetOrigin ⟨true, ⟨0, 0, 0⟩, ⟨0, 0, 1⟩, 1, Material.zero⟩ ⟨0, 0, 1⟩ -
          (Intersect.mk true ⟨0, 0, 0⟩ ⟨0, 0, 1⟩ 1 Material.zero).point).dot
          (Intersect.mk true ⟨0, 0, 0⟩ ⟨0, 0, 1⟩ 1 Material.zero).normal < 0 := by
  norm_num [offsetOrigin, ORIGIN_BIAS, Vec3.dot]

/-- C4 amended: the origin-offset operation displaces the hit point by the
fixed bias `1e-4` along the surface normal, with the sign of the
displacement's component along the normal equal to (not opposite to) the
sign of `direction ⬝ normal` for a unit normal (and positive when
`direction ⬝ normal = 0`). -/
theorem offsetOrigin_bias_same_sign (i : Intersect) (d : Vec3)
    (hn : i.normal.dot i.normal = 1) :
    (d.dot i.normal < 0 →
      (offsetOrigin i d - i.point).dot i.normal = -ORIGIN_BIAS) ∧
    (0 ≤ d.dot i.normal →
      (offsetOrigin i d - i.point).dot i.normal = ORIGIN_BIAS) := by
  constructor
  · intro hneg
    rw [offsetOrigin]
    simp only [if_pos hneg]
    simp only [Vec3.smul_def, Vec3.sub_def, Vec3.dot] at *
    linear_combination (-ORIGIN_BIAS) * hn
  · intro hpos
    rw [offsetOrigin]
    rw [if_neg (by linarith)]
    simp only [Vec3.smul_def, Vec3.add_def, Vec3.sub_def, Vec3.dot] at *
    linear_combination ORIGIN_BIAS * hn

/-- C4 amended witness: for the hit with normal `(0,0,1)` and outgoing
direction `(0,0,-1)` the displacement component along the normal is
`-ORIGIN_BIAS`, matching the negative sign of `direction ⬝ normal`; for
outgoing direction `(0,0,1)` it is `+ORIGIN_BIAS`. -/
theorem offsetOrigin_bias_same_sign_witness :
    (Vec3.mk 0 0 1).dot (Vec3.mk 0 0 1) = 1 ∧
      ((Vec3.mk 0 0 (-1)).dot (Vec3.mk 0 0 1) < 0 ∧
        (offsetOrigin ⟨true, ⟨0, 0, 0⟩, ⟨0, 0, 1⟩, 1, Material.zero⟩ ⟨0, 0, (-1)⟩ -
          (⟨0, 0, 0⟩ : Vec3)).dot ⟨0, 0, 1⟩ = -ORIGIN_BIAS) ∧
      (0 ≤ (Vec3.mk 0 0 1).dot (Vec3.mk 0 0 1) ∧
        (offsetOrigin ⟨true, ⟨0, 0, 0⟩, ⟨0, 0, 1⟩, 1, Material.zero⟩ ⟨0, 0, 1⟩ -
          (⟨0, 0, 0⟩ : Vec3)).dot ⟨0, 0, 1⟩ = ORIGIN_BIAS) := by
  refine ⟨by norm_num [Vec3.dot], ⟨by norm_num [Vec3.dot], ?_⟩, by norm_num [Vec3.dot], ?_⟩
  · exact (offsetOrigin_bias_same_sign ⟨true, ⟨0, 0, 0⟩, ⟨0, 0, 1⟩, 1, Material.zero⟩
      ⟨0, 0, (-1)⟩ (by norm_num [Vec3.dot])).1 (by norm_num [Vec3.dot])
  · exact (offsetOrigin_bias_same_sign ⟨true, ⟨0, 0, 0⟩, ⟨0, 0, 1⟩, 1, Material.zero⟩
      ⟨0, 0, 1⟩ (by norm_num [Vec3.dot])).2 (by norm_num [Vec3.dot])

/-! ### Claim C10: reflection is an involution -/

/-- C10: for every vector `v` and unit-length normal `n`, applying
`reflect` twice about the same normal returns the original vector. -/
theorem reflect_involution (v n : Vec3) (hn : n.mag = 1) :
    reflect (reflect v n) n = v := by
  have hnn : n.dot n = 1 := by
    have h0 := Vec3.dot_nonneg_self n
    have : Real.sqrt (n.dot n) = 1 := hn
    nlinarith [Real.sq_sqrt h0, this]
  cases v with
  | mk vx vy vz =>
    cases n with
    | mk nx ny nz =>
      simp only [Vec3.dot] at hnn
      simp only [reflect, Vec3.dot, Vec3.sub_def, Vec3.smul_def, Vec3.mk.injEq]
      refine ⟨?_, ?_, ?_⟩
      · linear_combination (4 * (vx * nx + vy * ny + vz * nz) * nx) * hnn
      · linear_combination (4 * (vx * nx + vy * ny + vz * nz) * ny) * hnn
      · linear_combination (4 * (vx * nx + vy * ny + vz * nz) * nz) * hnn

/-- C10 witness: reflecting `(1,-1,0)` about the unit normal `(0,1,0)`
twice returns `(1,-1,0)`. -/
theorem reflect_involution_witness :
    (Vec3.mk 0 1 0).mag = 1 ∧
      reflect (reflect ⟨1, -1, 0⟩ ⟨0, 1, 0⟩) ⟨0, 1, 0⟩ = ⟨1, -1, 0⟩ := by
  have hm : (Vec3.mk 0 1 0).mag = 1 := by
    simp [Vec3.mag, Vec3.dot]
  exact ⟨hm, reflect_involution ⟨1, -1, 0⟩ ⟨0, 1, 0⟩ hm⟩

/-! ### Claim C6: total internal reflection handling in `refract` -/

/-- C6: whenever the refraction discriminant `k` is negative (total
internal reflection), `refract` returns the reflected direction about the
oriented normal instead of a transmitted direction, silently; otherwise
it returns `eta * incident + (eta * cos_i - sqrt k) * normal`. -/
theorem refract_tir (incident normal : Vec3) (etaT : ℝ) :
    (refractK incident normal etaT < 0 →
      refract incident normal etaT = reflect incident (refractNormal incident normal)) ∧
    (¬ refractK incident normal etaT < 0 →
      refract incident normal etaT =
        refractEta incident normal etaT • incident +
          (refractEta incident normal etaT * refractNCosi incident normal -
            Real.sqrt (refractK incident normal etaT)) • refractNormal incident normal) := by
  constructor
  · intro hk
    rw [refract, if_pos hk]
  · intro hk
    rw [refract, if_neg hk]

/-- C6 witness: for incident `(1,0,0)`, normal `(0,0,1)` and `eta_t = 3`
the discriminant `k = -8 < 0`, and `refract` returns the reflected
direction; for incident `(0,0,-1)` and `eta_t = 1` the discriminant is
nonnegative and the Snell formula is returned. -/
theorem refract_tir_witness :
    (refractK ⟨1, 0, 0⟩ ⟨0, 0, 1⟩ 3 < 0 ∧
      refract ⟨1, 0, 0⟩ ⟨0, 0, 1⟩ 3 =
        reflect ⟨1, 0, 0⟩ (refractNormal ⟨1, 0, 0⟩ ⟨0, 0, 1⟩)) ∧
    (¬ refractK ⟨0, 0, -1⟩ ⟨0, 0, 1⟩ 1 < 0 ∧
      refract ⟨0, 0, -1⟩ ⟨0, 0, 1⟩ 1 =
        refractEta ⟨0, 0, -1⟩ ⟨0, 0, 1⟩ 1 • (⟨0, 0, -1⟩ : Vec3) +
          (refractEta ⟨0, 0, -1⟩ ⟨0, 0, 1⟩ 1 * refractNCosi ⟨0, 0, -1⟩ ⟨0, 0, 1⟩ -
            Real.sqrt (refractK ⟨0, 0, -1⟩ ⟨0, 0, 1⟩ 1)) •
            refractNormal ⟨0, 0, -1⟩ ⟨0, 0, 1⟩) := by
  have hk : refractK ⟨1, 0, 0⟩ ⟨0, 0, 1⟩ 3 < 0 := by
    norm_num [refractK, refractEta, refractNCosi, refractCosi, Vec3.dot]
  have hk2 : ¬ refractK ⟨0, 0, -1⟩ ⟨0, 0, 1⟩ 1 < 0 := by
    norm_num [refractK, refractEta, refractNCosi, refractCosi, Vec3.dot]
  exact ⟨⟨hk, (refract_tir ⟨1, 0, 0⟩ ⟨0, 0, 1⟩ 3).1 hk⟩,
    hk2, (refract_tir ⟨0, 0, -1⟩ ⟨0, 0, 1⟩ 1).2 hk2⟩

/-! ### Claim C2: characterization of the slab test -/

/-- C2: the box intersection test reports a hit iff `t_near > 0` and
`t_near < t_far` (IEEE comparisons); on a hit the point is
`origin + direction * t_near` and the distance is `t_near`; when
`t_near ≤ 0` or `t_near ≥ t_far` the empty sentinel (with
`is_intersecting = false`) is returned. -/
theorem rayIntersect_slab_charact (b : Block) (o d : Vec3) :
    ((b.rayIntersect o d).isIntersecting = true ↔
      FP.lt (FP.fin 0) (b.tNear o d) ∧ FP.lt (b.tNear o d) (b.tFar o d)) ∧
    ((b.rayIntersect o d).isIntersecting = true →
      (b.rayIntersect o d).point = o + (b.tNear o d).toReal • d ∧
      (b.rayIntersect o d).distance = (b.tNear o d).toReal) ∧
    ((FP.le (b.tNear o d) (FP.fin 0) ∨ FP.le (b.tFar o d) (b.tNear o d)) →
      b.rayIntersect o d = Intersect.empty ∧
        (b.rayIntersect o d).isIntersecting = false) := by
  by_cases h : FP.lt (FP.fin 0) (b.tNear o d) ∧ FP.lt (b.tNear o d) (b.tFar o d)
  · refine ⟨?_, ?_, ?_⟩
    · rw [Block.rayIntersect, if_pos h]
      simp [h]
    · intro _
      rw [Block.rayIntersect, if_pos h]
      exact ⟨rfl, rfl⟩
    · rintro (hle | hle)
      · exact absurd h.1 (FP.le_not_lt _ _ hle)
      · exact absurd h.2 (FP.le_not_lt _ _ hle)
  · have he : b.rayIntersect o d = Intersect.empty := by
      rw [Block.rayIntersect, if_neg h]
    refine ⟨?_, ?_, fun _ => ⟨he, by rw [he]; rfl⟩⟩
    · constructor
      · intro hi
        rw [he] at hi
        exact absurd hi (by simp [Intersect.empty])
      · intro hc
        exact absurd hc h
    · intro hi
      rw [he] at hi
      exact absurd hi (by simp [Intersect.empty])

/-- Diffuse red test material. -/
def matA : Material := ⟨⟨1, 0, 0⟩, 1, 1, 0, 0, 0, 0⟩

/-- Diffuse green test material. -/
def matB : Material := ⟨⟨0, 1, 0⟩, 1, 1, 0, 0, 0, 0⟩

/-- The unit-radius box with corners `(-1,-1,-1)`–`(1,1,1)`. -/
def boxUnit : Block := ⟨⟨-1, -1, -1⟩, ⟨1, 1, 1⟩, matA⟩

theorem boxUnit_tNear_front :
    boxUnit.tNear ⟨0, 0, 5⟩ ⟨0, 0, -1⟩ = FP.fin 4 := by
  norm_num [boxUnit, Block.tNear, FP.inv, FP.mulRF, FP.fmin, FP.fmax, min_def, max_def]

theorem boxUnit_tFar_front :
    boxUnit.tFar ⟨0, 0, 5⟩ ⟨0, 0, -1⟩ = FP.fin 6 := by
  norm_num [boxUnit, Block.tFar, FP.inv, FP.mulRF, FP.fmin, FP.fmax, min_def, max_def]

theorem boxUnit_front_eval :
    boxUnit.rayIntersect ⟨0, 0, 5⟩ ⟨0, 0, -1⟩ =
      ⟨true, ⟨0, 0, 1⟩, ⟨0, 0, 1⟩, 4, matA⟩ := by
  rw [Block.rayIntersect, boxUnit_tNear_front, boxUnit_tFar_front]
  rw [if_pos (by norm_num [FP.lt])]
  norm_num [FP.toReal, boxUnit, Block.getNormal, Vec3.smul_def, Vec3.add_def]

theorem boxUnit_tNear_inside :
    boxUnit.tNear ⟨0, 0, 0⟩ ⟨0, 0, -1⟩ = FP.fin (-1) := by
  norm_num [boxUnit, Block.tNear, FP.inv, FP.mulRF, FP.fmin, FP.fmax, min_def, max_def]

/-- C2 witness: a ray starting inside the unit box (origin `(0,0,0)`,
direction `(0,0,-1)`) has `t_near = -1 ≤ 0` and the test returns the
empty sentinel; a ray in front of the box does hit and its point and
distance come from `t_near`. -/
theorem rayIntersect_slab_charact_witness :
    ((FP.le (boxUnit.tNear ⟨0, 0, 0⟩ ⟨0, 0, -1⟩) (FP.fin 0) ∨
      FP.le (boxUnit.tFar ⟨0, 0, 0⟩ ⟨0, 0, -1⟩) (boxUnit.tNear ⟨0, 0, 0⟩ ⟨0, 0, -1⟩)) ∧
      boxUnit.rayIntersect ⟨0, 0, 0⟩ ⟨0, 0, -1⟩ = Intersect.empty) ∧
    ((boxUnit.rayIntersect ⟨0, 0, 5⟩ ⟨0, 0, -1⟩).isIntersecting = true ∧
      (boxUnit.rayIntersect ⟨0, 0, 5⟩ ⟨0, 0, -1⟩).point =
        (⟨0, 0, 5⟩ : Vec3) + (boxUnit.tNear ⟨0, 0, 5⟩ ⟨0, 0, -1⟩).toReal • (⟨0, 0, -1⟩ : Vec3) ∧
      (boxUnit.rayIntersect ⟨0, 0, 5⟩ ⟨0, 0, -1⟩).distance =
        (boxUnit.tNear ⟨0, 0, 5⟩ ⟨0, 0, -1⟩).toReal) := by
  have hor : FP.le (boxUnit.tNear ⟨0, 0, 0⟩ ⟨0, 0, -1⟩) (FP.fin 0) ∨
      FP.le (boxUnit.tFar ⟨0, 0, 0⟩ ⟨0, 0, -1⟩) (boxUnit.tNear ⟨0, 0, 0⟩ ⟨0, 0, -1⟩) := by
    left
    rw [boxUnit_tNear_inside]
    norm_num [FP.le]
  have hhit : (boxUnit.rayIntersect ⟨0, 0, 5⟩ ⟨0, 0, -1⟩).isIntersecting = true := by
    rw [boxUnit_front_eval]
  refine ⟨⟨hor, ((rayIntersect_slab_charact boxUnit ⟨0, 0, 0⟩ ⟨0, 0, -1⟩).2.2 hor).1⟩,
    hhit, (rayIntersect_slab_charact boxUnit ⟨0, 0, 5⟩ ⟨0, 0, -1⟩).2.1 hhit⟩

/-! ### Claim C5: axis-aligned ray against the unit box -/

/-- C5: for the box `(-1,-1,-1)`–`(1,1,1)` and the ray from `(0,0,5)`
toward `(0,0,-1)` — whose zero x/y direction components make the
componentwise reciprocal an IEEE infinity rather than an error — the slab
test totals and returns a hit with distance 4, hit point `(0,0,1)` and
normal `(0,0,1)`. -/
theorem rayIntersect_axis_ray_infinities :
    FP.inv (0 : ℝ) = FP.pinf ∧
      boxUnit.rayIntersect ⟨0, 0, 5⟩ ⟨0, 0, -1⟩ =
        ⟨true, ⟨0, 0, 1⟩, ⟨0, 0, 1⟩, 4, matA⟩ :=
  ⟨by norm_num [FP.inv], boxUnit_front_eval⟩

/-! ### Claim C3: the shadow test -/

/-- An object occludes the shadow ray when its intersection is real and
closer than the light. -/
def occludes (origin dir : Vec3) (lightDistance : ℝ) (obj : Block) : Prop :=
  (obj.rayIntersect origin dir).isIntersecting = true ∧
    (obj.rayIntersect origin dir).distance < lightDistance

theorem castShadowLoop_bounds (o d : Vec3) (lightDistance : ℝ) :
    ∀ l : List Block, 0 ≤ castShadowLoop o d lightDistance l ∧
      castShadowLoop o d lightDistance l ≤ 1 := by
  intro l
  induction l with
  | nil => simp [castShadowLoop]
  | cons obj rest ih =>
    rw [castShadowLoop]
    split_ifs with hc
    · constructor
      · have : min (((obj.rayIntersect o d).distance / lightDistance) ^ 2) 1 ≤ 1 :=
          min_le_right _ _
        linarith
      · have : 0 ≤ min (((obj.rayIntersect o d).distance / lightDistance) ^ 2) 1 :=
          le_min (sq_nonneg _) zero_le_one
        linarith
    · exact ih

theorem castShadowLoop_none (o d : Vec3) (lightDistance : ℝ) :
    ∀ l : List Block, (∀ obj ∈ l, ¬ occludes o d lightDistance obj) →
      castShadowLoop o d lightDistance l = 0 := by
  intro l
  induction l with
  | nil => intro _; rfl
  | cons obj rest ih =>
    intro h
    have h' := h
    simp only [occludes] at h'
    rw [castShadowLoop]
    rw [if_neg (h' obj (List.mem_cons_self obj rest))]
    exact ih fun o' ho' => h o' (List.mem_cons_of_mem obj ho')

theorem castShadowLoop_first (o d : Vec3) (lightDistance : ℝ) :
    ∀ l₁ : List Block, ∀ obj : Block, ∀ l₂ : List Block,
      (∀ o' ∈ l₁, ¬ occludes o d lightDistance o') →
      occludes o d lightDistance obj →
      castShadowLoop o d lightDistance (l₁ ++ obj :: l₂) =
        1 - min (((obj.rayIntersect o d).distance / lightDistance) ^ 2) 1 := by
  intro l₁
  induction l₁ with
  | nil =>
    intro obj l₂ _ hocc
    simp only [occludes] at hocc
    rw [List.nil_append, castShadowLoop, if_pos hocc]
  | cons p rest ih =>
    intro obj l₂ hnone hocc
    have hp := hnone p (List.mem_cons_self p rest)
    simp only [occludes] at hp
    rw [List.cons_append, castShadowLoop]
    rw [if_neg hp]
    exact ih obj l₂ (fun o' ho' => hnone o' (List.mem_cons_of_mem p ho')) hocc

/-- C3: the shadow test scans the scene in sequence order; on the first
occluder (intersection closer than the light) it stops and returns
`1 - min((d/L)^2, 1)`; with no occluder it returns 0; the result always
lies in `[0,1]`. -/
theorem castShadow_first_occluder (i : Intersect) (light : Light) (objects : List Block) :
    (0 ≤ castShadow i light objects ∧ castShadow i light objects ≤ 1) ∧
    ((∀ obj ∈ objects,
        ¬ occludes (shadowOriginOf i light) (lightDirOf i light) (lightDistOf i light) obj) →
      castShadow i light objects = 0) ∧
    (∀ l₁ : List Block, ∀ obj : Block, ∀ l₂ : List Block, objects = l₁ ++ obj :: l₂ →
      (∀ o' ∈ l₁,
        ¬ occludes (shadowOriginOf i light) (lightDirOf i light) (lightDistOf i light) o') →
      occludes (shadowOriginOf i light) (lightDirOf i light) (lightDistOf i light) obj →
      castShadow i light objects =
        1 - min (((obj.rayIntersect (shadowOriginOf i light)
            (lightDirOf i light)).distance / lightDistOf i light) ^ 2) 1) := by
  refine ⟨castShadowLoop_bounds _ _ _ _, castShadowLoop_none _ _ _ _, ?_⟩
  intro l₁ obj l₂ hsplit hnone hocc
  rw [castShadow, hsplit]
  exact castShadowLoop_first _ _ _ l₁ obj l₂ hnone hocc

/-- The hit record used by the shadow-test witness. -/
def hitW : Intersect := ⟨true, ⟨0, 0, 0⟩, ⟨0, 0, 1⟩, 1, matA⟩

/-- The light used by the shadow-test witness, 5 units above the hit. -/
def lightW : Light := ⟨⟨0, 0, 5⟩, ⟨255, 255, 255⟩, 1⟩

/-- A box hovering between the witness hit point and the witness light. -/
def boxW : Block := ⟨⟨-1, -1, 1⟩, ⟨1, 1, 2⟩, matA⟩

theorem lightDirOf_hitW : lightDirOf hitW lightW = ⟨0, 0, 1⟩ := by
  have h25 : Real.sqrt 25 = 5 := by
    rw [show (25 : ℝ) = 5 ^ 2 by norm_num, Real.sqrt_sq (by norm_num)]
  norm_num [lightDirOf, hitW, lightW, Vec3.normalize, Vec3.mag, Vec3.dot, Vec3.smul, h25]

theorem lightDistOf_hitW : lightDistOf hitW lightW = 5 := by
  have h25 : Real.sqrt 25 = 5 := by
    rw [show (25 : ℝ) = 5 ^ 2 by norm_num, Real.sqrt_sq (by norm_num)]
  norm_num [lightDistOf, hitW, lightW, Vec3.mag, Vec3.dot, h25]

theorem shadowOriginOf_hitW : shadowOriginOf hitW lightW = ⟨0, 0, 1e-4⟩ := by
  rw [shadowOriginOf, lightDirOf_hitW]
  norm_num [offsetOrigin, hitW, ORIGIN_BIAS, Vec3.dot, Vec3.smul_def, Vec3.add_def]

theorem boxW_hit :
    boxW.rayIntersect ⟨0, 0, 1e-4⟩ ⟨0, 0, 1⟩ =
      ⟨true, ⟨0, 0, 1⟩, ⟨0, 0, -1⟩, 0.9999, matA⟩ := by
  have hn : boxW.tNear ⟨0, 0, 1e-4⟩ ⟨0, 0, 1⟩ = FP.fin 0.9999 := by
    norm_num [boxW, Block.tNear, FP.inv, FP.mulRF, FP.fmin, FP.fmax, min_def, max_def]
  have hf : boxW.tFar ⟨0, 0, 1e-4⟩ ⟨0, 0, 1⟩ = FP.fin 1.9999 := by
    norm_num [boxW, Block.tFar, FP.inv, FP.mulRF, FP.fmin, FP.fmax, min_def, max_def]
  rw [Block.rayIntersect, hn, hf, if_pos (by norm_num [FP.lt])]
  norm_num [FP.toReal, boxW, Block.getNormal, Vec3.smul_def, Vec3.add_def]

/-- C3 witness: with the single hovering box as scene, the first (and
only) occluder is found at distance `0.9999` against light distance 5 and
the shadow intensity is `1 - min((0.9999/5)^2, 1)`; the value lies in
`[0,1]`. -/
theorem castShadow_first_occluder_witness :
    occludes (shadowOriginOf hitW lightW) (lightDirOf hitW lightW)
        (lightDistOf hitW lightW) boxW ∧
      castShadow hitW lightW [boxW] =
        1 - min (((boxW.rayIntersect (shadowOriginOf hitW lightW)
            (lightDirOf hitW lightW)).distance / lightDistOf hitW lightW) ^ 2) 1 ∧
      0 ≤ castShadow hitW lightW [boxW] ∧ castShadow hitW lightW [boxW] ≤ 1 := by
  have hocc : occludes (shadowOriginOf hitW lightW) (lightDirOf hitW lightW)
      (lightDistOf hitW lightW) boxW := by
    rw [occludes, shadowOriginOf_hitW, lightDirOf_hitW, lightDistOf_hitW, boxW_hit]
    norm_num
  refine ⟨hocc, ?_, (castShadow_first_occluder hitW lightW [boxW]).1⟩
  exact (castShadow_first_occluder hitW lightW [boxW]).2.2 [] boxW []
    (by simp) (by simp) hocc

/-! ### Claim C8: the diffuse term -/

/-- Every hit produced by the box intersection test carries one of the six
unit axis normals, so its normal has unit dot square. -/
theorem rayIntersect_normal_unit (b : Block) (o d : Vec3)
    (h : (b.rayIntersect o d).isIntersecting = true) :
    (b.rayIntersect o d).normal.dot (b.rayIntersect o d).normal = 1 := by
  rw [Block.rayIntersect] at *
  split_ifs at * with hc
  · simp only []
    rw [Block.getNormal]
    split_ifs <;> norm_num [Vec3.dot]
  · exact absurd h (by simp [Intersect.empty])

/-- C8: for every shaded hit, the diffuse contribution computed by
`cast_ray` equals `material.diffuse_color * albedo[0] *
max(0, normal ⬝ light_dir) * light_intensity` (the `min 1` clamp in the
code is redundant because the normal is unit and the light direction is
normalized). -/
theorem castRay_diffuse_formula (b : Block) (o d : Vec3) (light : Light)
    (lightIntensity : ℝ) (h : (b.rayIntersect o d).isIntersecting = true) :
    diffuseTerm (b.rayIntersect o d) light lightIntensity =
      (b.rayIntersect o d).material.diffuse.mulS
        ((b.rayIntersect o d).material.albedo0 *
          max 0 ((b.rayIntersect o d).normal.dot
            (lightDirOf (b.rayIntersect o d) light)) *
          lightIntensity) := by
  have hn := rayIntersect_normal_unit b o d h
  set i := b.rayIntersect o d with hi
  have hle : i.normal.dot (lightDirOf i light) ≤ 1 := by
    rw [lightDirOf]
    exact dot_normalize_le_one _ _ hn
  have hmin : min (max (i.normal.dot (lightDirOf i light)) 0) 1 =
      max 0 (i.normal.dot (lightDirOf i light)) := by
    rw [min_eq_left (max_le hle zero_le_one), max_comm]
  rw [diffuseTerm]
  simp only [hmin]
  cases hd : i.material.diffuse with
  | mk cr cg cb =>
    simp only [Color.mulS, Color.mk.injEq]
    refine ⟨by ring, by ring, by ring⟩

/-- C8 witness: for the front hit of the unit box and a light at
`(0,3,5)` (unit light direction `(0, 3/5, 4/5)`), the diffuse term equals
the claimed formula. -/
theorem castRay_diffuse_formula_witness :
    (boxUnit.rayIntersect ⟨0, 0, 5⟩ ⟨0, 0, -1⟩).isIntersecting = true ∧
      diffuseTerm (boxUnit.rayIntersect ⟨0, 0, 5⟩ ⟨0, 0, -1⟩) ⟨⟨0, 3, 5⟩, ⟨255, 255, 255⟩, 1⟩ 1 =
        (boxUnit.rayIntersect ⟨0, 0, 5⟩ ⟨0, 0, -1⟩).material.diffuse.mulS
          ((boxUnit.rayIntersect ⟨0, 0, 5⟩ ⟨0, 0, -1⟩).material.albedo0 *
            max 0 ((boxUnit.rayIntersect ⟨0, 0, 5⟩ ⟨0, 0, -1⟩).normal.dot
              (lightDirOf (boxUnit.rayIntersect ⟨0, 0, 5⟩ ⟨0, 0, -1⟩)
                ⟨⟨0, 3, 5⟩, ⟨255, 255, 255⟩, 1⟩)) * 1) := by
  have h : (boxUnit.rayIntersect ⟨0, 0, 5⟩ ⟨0, 0, -1⟩).isIntersecting = true := by
    rw [boxUnit_front_eval]
  exact ⟨h, castRay_diffuse_formula boxUnit ⟨0, 0, 5⟩ ⟨0, 0, -1⟩
    ⟨⟨0, 3, 5⟩, ⟨255, 255, 255⟩, 1⟩ 1 h⟩

/-! ### Claim C9: scene order and the nearest-intersection selection -/

/-- Two scene objects never tie: it is not the case that both intersect
the ray at exactly the same distance. -/
def hitDistinct (o d : Vec3) (b₁ b₂ : Block) : Prop :=
  ¬ ((b₁.rayIntersect o d).isIntersecting = true ∧
      (b₂.rayIntersect o d).isIntersecting = true ∧
      (b₁.rayIntersect o d).distance = (b₂.rayIntersect o d).distance)

theorem hitDistinct_symm (o d : Vec3) : Symmetric (hitDistinct o d) := by
  intro a b hab ⟨h1, h2, h3⟩
  exact hab ⟨h2, h1, h3.symm⟩

theorem scanStep_skip (o d : Vec3) (c : Block)
    (hc : ¬ (c.rayIntersect o d).isIntersecting = true) (z : Intersect × FP) :
    scanStep o d z c = z := by
  rw [scanStep, if_neg (fun hx => hc hx.1)]

/-- The nearest-hit scan step commutes on two objects that do not tie. -/
theorem scanStep_comm (o d : Vec3) (a b : Block) (h : hitDistinct o d a b)
    (z : Intersect × FP) :
    scanStep o d (scanStep o d z a) b = scanStep o d (scanStep o d z b) a := by
  by_cases hA : (a.rayIntersect o d).isIntersecting = true
  · by_cases hB : (b.rayIntersect o d).isIntersecting = true
    · have hne : (a.rayIntersect o d).distance ≠ (b.rayIntersect o d).distance :=
        fun he => h ⟨hA, hB, he⟩
      rcases z with ⟨s, zf⟩
      cases zf <;>
        simp only [scanStep, FP.lt, hA, hB, true_and, if_false, if_true] <;>
        split_ifs <;>
        first
          | rfl
          | (exfalso; exact hne (le_antisymm (not_lt.mp (by assumption)) (not_lt.mp (by assumption))))
          | (exfalso; simp_all [FP.lt]; try linarith)
    · rw [scanStep_skip o d b hB, scanStep_skip o d b hB]
  · rw [scanStep_skip o d a hA, scanStep_skip o d a hA]

/-- C9 amended: provided no two scene objects intersect the ray at the
same distance, the nearest-intersection selection of `cast_ray` is the
same for every ordering of the scene list. -/
theorem nearestHit_perm_invariant (o d : Vec3) (l₁ l₂ : List Block)
    (hp : l₁.Perm l₂) (hd : l₁.Pairwise (hitDistinct o d)) :
    nearestHit o d l₁ = nearestHit o d l₂ := by
  rw [nearestHit, nearestHit]
  refine congrArg Prod.fst (hp.foldl_eq' ?_ _)
  intro x hx y hy z
  by_cases hxy : x = y
  · rw [hxy]
  · exact scanStep_comm o d x y
      (List.Pairwise.forall (hitDistinct_symm o d) hd hx hy hxy) z

/-- A big box whose front face coincides with the unit box's front face,
so both intersect the test ray at distance 4. -/
def boxBig : Block := ⟨⟨-2, -2, -3⟩, ⟨2, 2, 1⟩, matB⟩

theorem boxBig_front_eval :
    boxBig.rayIntersect ⟨0, 0, 5⟩ ⟨0, 0, -1⟩ =
      ⟨true, ⟨0, 0, 1⟩, ⟨0, 0, 1⟩, 4, matB⟩ := by
  have hn : boxBig.tNear ⟨0, 0, 5⟩ ⟨0, 0, -1⟩ = FP.fin 4 := by
    norm_num [boxBig, Block.tNear, FP.inv, FP.mulRF, FP.fmin, FP.fmax, min_def, max_def]
  have hf : boxBig.tFar ⟨0, 0, 5⟩ ⟨0, 0, -1⟩ = FP.fin 8 := by
    norm_num [boxBig, Block.tFar, FP.inv, FP.mulRF, FP.fmin, FP.fmax, min_def, max_def]
  rw [Block.rayIntersect, hn, hf, if_pos (by norm_num [FP.lt])]
  norm_num [FP.toReal, boxBig, Block.getNormal, Vec3.smul_def, Vec3.add_def]

theorem nearestHit_tie_first :
    nearestHit ⟨0, 0, 5⟩ ⟨0, 0, -1⟩ [boxUnit, boxBig] =
      ⟨true, ⟨0, 0, 1⟩, ⟨0, 0, 1⟩, 4, matA⟩ := by
  rw [nearestHit, List.foldl, List.foldl, List.foldl]
  rw [show scanStep ⟨0, 0, 5⟩ ⟨0, 0, -1⟩ (Intersect.empty, FP.pinf) boxUnit =
      ((⟨true, ⟨0, 0, 1⟩, ⟨0, 0, 1⟩, 4, matA⟩ : Intersect), FP.fin 4) by
    rw [scanStep, boxUnit_front_eval, if_pos (by norm_num [FP.lt])]]
  rw [scanStep, boxBig_front_eval]
  rw [if_neg (by norm_num [FP.lt])]

theorem nearestHit_tie_second :
    nearestHit ⟨0, 0, 5⟩ ⟨0, 0, -1⟩ [boxBig, boxUnit] =
      ⟨true, ⟨0, 0, 1⟩, ⟨0, 0, 1⟩, 4, matB⟩ := by
  rw [nearestHit, List.foldl, List.foldl, List.foldl]
  rw [show scanStep ⟨0, 0, 5⟩ ⟨0, 0, -1⟩ (Intersect.empty, FP.pinf) boxBig =
      ((⟨true, ⟨0, 0, 1⟩, ⟨0, 0, 1⟩, 4, matB⟩ : Intersect), FP.fin 4) by
    rw [scanStep, boxBig_front_eval, if_pos (by norm_num [FP.lt])]]
  rw [scanStep, boxUnit_front_eval]
  rw [if_neg (by norm_num [FP.lt])]

/-- C9 counterexample: two boxes tie at distance 4; swapping them changes
the selected hit (its material flips from the first box's to the second
box's), so the nearest-intersection selection is not the same for every
ordering of the scene list. -/
theorem nearestHit_order_counterexample :
    List.Perm [boxUnit, boxBig] [boxBig, boxUnit] ∧
      nearestHit ⟨0, 0, 5⟩ ⟨0, 0, -1⟩ [boxUnit, boxBig] ≠
        nearestHit ⟨0, 0, 5⟩ ⟨0, 0, -1⟩ [boxBig, boxUnit] := by
  refine ⟨List.Perm.swap boxBig boxUnit [], ?_⟩
  rw [nearestHit_tie_first, nearestHit_tie_second]
  intro hcontra
  have := congrArg (fun i => i.material.diffuse.r) hcontra
  norm_num [matA, matB] at this

/-- C9 amended witness: the unit box (hit distance 4) and the hovering box
`boxW` (hit distance 3) do not tie, and the nearest-hit selection agrees
on the two orderings. -/
theorem nearestHit_perm_invariant_witness :
    List.Perm [boxUnit, boxW] [boxW, boxUnit] ∧
      List.Pairwise (hitDistinct ⟨0, 0, 5⟩ ⟨0, 0, -1⟩) [boxUnit, boxW] ∧
      nearestHit ⟨0, 0, 5⟩ ⟨0, 0, -1⟩ [boxUnit, boxW] =
        nearestHit ⟨0, 0, 5⟩ ⟨0, 0, -1⟩ [boxW, boxUnit] := by
  have hW : boxW.rayIntersect ⟨0, 0, 5⟩ ⟨0, 0, -1⟩ =
      ⟨true, ⟨0, 0, 2⟩, ⟨0, 0, 1⟩, 3, matA⟩ := by
    have hn : boxW.tNear ⟨0, 0, 5⟩ ⟨0, 0, -1⟩ = FP.fin 3 := by
      norm_num [boxW, Block.tNear, FP.inv, FP.mulRF, FP.fmin, FP.fmax, min_def, max_def]
    have hf : boxW.tFar ⟨0, 0, 5⟩ ⟨0, 0, -1⟩ = FP.fin 4 := by
      norm_num [boxW, Block.tFar, FP.inv, FP.mulRF, FP.fmin, FP.fmax, min_def, max_def]
    rw [Block.rayIntersect, hn, hf, if_pos (by norm_num [FP.lt])]
    norm_num [FP.toReal, boxW, Block.getNormal, Vec3.smul_def, Vec3.add_def]
  have hpw : List.Pairwise (hitDistinct ⟨0, 0, 5⟩ ⟨0, 0, -1⟩) [boxUnit, boxW] := by
    refine List.Pairwise.cons ?_ (List.pairwise_singleton _ _)
    intro b hb
    rw [List.mem_singleton] at hb
    rw [hb, hitDistinct, boxUnit_front_eval, hW]
    norm_num
  exact ⟨List.Perm.swap boxW boxUnit [], hpw,
    nearestHit_perm_invariant ⟨0, 0, 5⟩ ⟨0, 0, -1⟩ [boxUnit, boxW] [boxW, boxUnit]
      (List.Perm.swap boxW boxUnit []) hpw⟩

/-! ### Claim C7: counting the recursive invocations of `cast_ray` -/

theorem castRayCalls_guard (o d : Vec3) (objs : List Block) (light : Light)
    (depth : ℕ) (h : depth > 3) : castRayCalls o d objs light depth = 0 := by
  rw [castRayCalls, dif_pos h]

theorem castRayCalls_miss (o d : Vec3) (objs : List Block) (light : Light)
    (depth : ℕ) (hm : (nearestHit o d objs).isIntersecting = false) :
    castRayCalls o d objs light depth = 0 := by
  by_cases h1 : depth > 3
  · rw [castRayCalls, dif_pos h1]
  · rw [castRayCalls, dif_neg h1]
    simp [hm]

theorem castRayCalls_hit (o d : Vec3) (objs : List Block) (light : Light)
    (depth : ℕ) (rec : Intersect) (h1 : ¬ depth > 3)
    (hr : nearestHit o d objs = rec) (ht : rec.isIntersecting = true) :
    castRayCalls o d objs light depth =
      (if rec.material.albedo2 > 0 then
        1 + castRayCalls (offsetOrigin rec ((reflect d rec.normal).normalize))
              ((reflect d rec.normal).normalize) objs light (depth + 1)
      else 0) +
      (if rec.material.albedo3 > 0 then
        1 + castRayCalls (offsetOrigin rec (refract d rec.normal rec.material.refractiveIndex))
              (refract d rec.normal rec.material.refractiveIndex) objs light (depth + 1)
      else 0) := by
  rw [castRayCalls, dif_neg h1]
  simp only [hr, ht, Bool.true_eq_false, if_false]

/-- C7 amended, general bound: a call at depth `d` with `4 - d ≤ n`
performs at most `2^(n+1) - 2` recursive invocations. -/
theorem castRayCalls_le (objs : List Block) (light : Light) :
    ∀ n : ℕ, ∀ o d : Vec3, ∀ depth : ℕ, 4 - depth ≤ n →
      castRayCalls o d objs light depth ≤ 2 ^ (n + 1) - 2 := by
  intro n
  induction n with
  | zero =>
    intro o d depth hd
    rw [castRayCalls_guard o d objs light depth (by omega)]
    exact Nat.zero_le _
  | succ n ih =>
    intro o d depth hd
    have key : ∀ o' d' : Vec3, castRayCalls o' d' objs light (depth + 1) ≤ 2 ^ (n + 1) - 2 :=
      fun o' d' => ih o' d' (depth + 1) (by omega)
    have h2 : 2 ≤ 2 ^ (n + 1) := by
      calc 2 = 2 ^ 1 := by norm_num
        _ ≤ 2 ^ (n + 1) := Nat.pow_le_pow_right (by norm_num) (by omega)
    by_cases h1 : depth > 3
    · rw [castRayCalls_guard o d objs light depth h1]
      exact Nat.zero_le _
    · by_cases hm : (nearestHit o d objs).isIntersecting = false
      · rw [castRayCalls_miss o d objs light depth hm]
        exact Nat.zero_le _
      · have ht : (nearestHit o d objs).isIntersecting = true := by
          cases hb : (nearestHit o d objs).isIntersecting
          · exact absurd hb hm
          · rfl
        rw [castRayCalls_hit o d objs light depth (nearestHit o d objs) h1 rfl ht]
        have hb1 : (if (nearestHit o d objs).material.albedo2 > 0 then
            1 + castRayCalls
              (offsetOrigin (nearestHit o d objs)
                ((reflect d (nearestHit o d objs).normal).normalize))
              ((reflect d (nearestHit o d objs).normal).normalize) objs light (depth + 1)
          else 0) ≤ 2 ^ (n + 1) - 1 := by
          split_ifs
          · refine le_trans (Nat.add_le_add_left (key _ _) 1) ?_
            omega
          · omega
        have hb2 : (if (nearestHit o d objs).material.albedo3 > 0 then
            1 + castRayCalls
              (offsetOrigin (nearestHit o d objs)
                (refract d (nearestHit o d objs).normal
                  (nearestHit o d objs).material.refractiveIndex))
              (refract d (nearestHit o d objs).normal
                (nearestHit o d objs).material.refractiveIndex) objs light (depth + 1)
          else 0) ≤ 2 ^ (n + 1) - 1 := by
          split_ifs
          · refine le_trans (Nat.add_le_add_left (key _ _) 1) ?_
            omega
          · omega
        have hpow : (2 : ℕ) ^ (n + 1 + 1) = 2 * 2 ^ (n + 1) := by ring
        omega

/-- C7 amended: every call of `cast_ray` at depth 0 performs at most 30
recursive invocations of `cast_ray` (and the depth-4 leaves return
immediately at the guard). -/
theorem castRayCalls_root_le (o d : Vec3) (objs : List Block) (light : Light) :
    castRayCalls o d objs light 0 ≤ 30 := by
  have h := castRayCalls_le objs light 4 o d 0 (by norm_num)
  norm_num at h
  exact h

/-- A laterally wide axis-aligned slab `[a, b']` along z. -/
def zslab (a b' : ℝ) (m : Material) : Block := ⟨⟨-100, -100, a⟩, ⟨100, 100, b'⟩, m⟩

theorem zslab_down_tNear (a b' p : ℝ) (m : Material) (hab : a ≤ b') :
    (zslab a b' m).tNear ⟨0, 0, p⟩ ⟨0, 0, -1⟩ = FP.fin (p - b') := by
  rw [zslab, Block.tNear]
  norm_num [FP.inv, FP.mulRF, FP.fmin, FP.fmax]
  linarith

theorem zslab_down_tFar (a b' p : ℝ) (m : Material) (hab : a ≤ b') :
    (zslab a b' m).tFar ⟨0, 0, p⟩ ⟨0, 0, -1⟩ = FP.fin (p - a) := by
  rw [zslab, Block.tFar]
  norm_num [FP.inv, FP.mulRF, FP.fmin, FP.fmax]
  linarith

theorem zslab_up_tNear (a b' p : ℝ) (m : Material) (hab : a ≤ b') :
    (zslab a b' m).tNear ⟨0, 0, p⟩ ⟨0, 0, 1⟩ = FP.fin (a - p) := by
  rw [zslab, Block.tNear]
  norm_num [FP.inv, FP.mulRF, FP.fmin, FP.fmax]
  linarith

theorem zslab_up_tFar (a b' p : ℝ) (m : Material) (hab : a ≤ b') :
    (zslab a b' m).tFar ⟨0, 0, p⟩ ⟨0, 0, 1⟩ = FP.fin (b' - p) := by
  rw [zslab, Block.tFar]
  norm_num [FP.inv, FP.mulRF, FP.fmin, FP.fmax]
  linarith

theorem zslab_down_hit (a b' p : ℝ) (m : Material) (hab : 0.001 ≤ b' - a) (hp : b' < p) :
    (zslab a b' m).rayIntersect ⟨0, 0, p⟩ ⟨0, 0, -1⟩ =
      ⟨true, ⟨0, 0, b'⟩, ⟨0, 0, 1⟩, p - b', m⟩ := by
  rw [Block.rayIntersect, zslab_down_tNear a b' p m (by linarith),
    zslab_down_tFar a b' p m (by linarith)]
  rw [if_pos (by constructor <;> simp [FP.lt] <;> linarith)]
  simp only [FP.toReal]
  have hpt : (⟨0, 0, p⟩ : Vec3) + (p - b') • (⟨0, 0, -1⟩ : Vec3) = ⟨0, 0, b'⟩ := by
    norm_num [Vec3.smul_def, Vec3.add_def]
  rw [hpt]
  have hnm : (zslab a b' m).getNormal ⟨0, 0, b'⟩ = ⟨0, 0, 1⟩ := by
    rw [zslab, Block.getNormal]
    rw [if_neg (by norm_num), if_neg (by norm_num), if_neg (by norm_num),
      if_neg (by norm_num), if_neg (by rw [abs_sub_lt_iff]; push_neg; intro h; linarith)]
  rw [hnm]
  rfl

theorem zslab_down_miss (a b' p : ℝ) (m : Material) (hab : a ≤ b') (hp : p ≤ b') :
    (zslab a b' m).rayIntersect ⟨0, 0, p⟩ ⟨0, 0, -1⟩ = Intersect.empty := by
  rw [Block.rayIntersect, zslab_down_tNear a b' p m hab]
  rw [if_neg]
  rintro ⟨h1, _⟩
  simp only [FP.lt] at h1
  linarith

theorem zslab_up_hit (a b' p : ℝ) (m : Material) (hab : 0.001 ≤ b' - a) (hp : p < a) :
    (zslab a b' m).rayIntersect ⟨0, 0, p⟩ ⟨0, 0, 1⟩ =
      ⟨true, ⟨0, 0, a⟩, ⟨0, 0, -1⟩, a - p, m⟩ := by
  rw [Block.rayIntersect, zslab_up_tNear a b' p m (by linarith),
    zslab_up_tFar a b' p m (by linarith)]
  rw [if_pos (by constructor <;> simp [FP.lt] <;> linarith)]
  simp only [FP.toReal]
  have hpt : (⟨0, 0, p⟩ : Vec3) + (a - p) • (⟨0, 0, 1⟩ : Vec3) = ⟨0, 0, a⟩ := by
    norm_num [Vec3.smul_def, Vec3.add_def]
  rw [hpt]
  have hnm : (zslab a b' m).getNormal ⟨0, 0, a⟩ = ⟨0, 0, -1⟩ := by
    rw [zslab, Block.getNormal]
    rw [if_neg (by norm_num), if_neg (by norm_num), if_neg (by norm_num),
      if_neg (by norm_num), if_pos (by norm_num)]
  rw [hnm]
  rfl

theorem zslab_up_miss (a b' p : ℝ) (m : Material) (hab : a ≤ b') (hp : a ≤ p) :
    (zslab a b' m).rayIntersect ⟨0, 0, p⟩ ⟨0, 0, 1⟩ = Intersect.empty := by
  rw [Block.rayIntersect, zslab_up_tNear a b' p m hab]
  rw [if_neg]
  rintro ⟨h1, _⟩
  simp only [FP.lt] at h1
  linarith

/-- A mirror-and-glass material: reflective (`albedo[2] = 0.1 > 0`),
transparent (`albedo[3] = 0.6 > 0`), refractive index 1. -/
def matGlass : Material := ⟨⟨64, 164, 223⟩, 1, 0.1, 0.8, 0.1, 0.6, 1⟩

def slabA : Block := zslab 4 5 matGlass

def slabB : Block := zslab 6 7 matGlass

def slabC : Block := zslab 9 10 matGlass

/-- Three stacked mirror-and-glass slabs. -/
def sceneMirror : List Block := [slabA, slabB, slabC]

def lightC7 : Light := ⟨⟨0, 0, 50⟩, ⟨255, 255, 255⟩, 1⟩

theorem scanStep_update (o d : Vec3) (obj : Block) (z : Intersect × FP) (rec : Intersect)
    (hr : obj.rayIntersect o d = rec) (ht : rec.isIntersecting = true)
    (hlt : FP.lt (FP.fin rec.distance) z.2) :
    scanStep o d z obj = (rec, FP.fin rec.distance) := by
  rw [scanStep]
  simp only [hr, ht, true_and]
  rw [if_pos hlt]

theorem scanStep_keep (o d : Vec3) (obj : Block) (z : Intersect × FP) (rec : Intersect)
    (hr : obj.rayIntersect o d = rec)
    (hge : ¬ FP.lt (FP.fin rec.distance) z.2) :
    scanStep o d z obj = z := by
  rw [scanStep]
  simp only [hr]
  rw [if_neg (fun hc => hge hc.2)]

theorem scan85dn :
    nearestHit ⟨0, 0, (8.5 : ℝ)⟩ ⟨0, 0, -1⟩ sceneMirror =
      ⟨true, ⟨0, 0, 7⟩, ⟨0, 0, 1⟩, 1.5, matGlass⟩ := by
  have hA : slabA.rayIntersect ⟨0, 0, (8.5 : ℝ)⟩ ⟨0, 0, -1⟩ =
      ⟨true, ⟨0, 0, 5⟩, ⟨0, 0, 1⟩, 3.5, matGlass⟩ := by
    simp only [slabA]
    rw [zslab_down_hit 4 5 8.5 matGlass (by norm_num) (by norm_num)]
    norm_num
  have hB : slabB.rayIntersect ⟨0, 0, (8.5 : ℝ)⟩ ⟨0, 0, -1⟩ =
      ⟨true, ⟨0, 0, 7⟩, ⟨0, 0, 1⟩, 1.5, matGlass⟩ := by
    simp only [slabB]
    rw [zslab_down_hit 6 7 8.5 matGlass (by norm_num) (by norm_num)]
    norm_num
  have hC : slabC.rayIntersect ⟨0, 0, (8.5 : ℝ)⟩ ⟨0, 0, -1⟩ = Intersect.empty := by
    simp only [slabC]
    exact zslab_down_miss 9 10 8.5 matGlass (by norm_num) (by norm_num)
  rw [nearestHit, sceneMirror]
  simp only [List.foldl_cons, List.foldl_nil]
  rw [scanStep_update _ _ _ _ _ hA rfl (by norm_num [FP.lt])]
  rw [scanStep_update _ _ _ _ _ hB rfl (by norm_num [FP.lt])]
  rw [scanStep_skip _ _ slabC (by rw [hC]; simp [Intersect.empty])]

theorem scan70001up :
    nearestHit ⟨0, 0, (7.0001 : ℝ)⟩ ⟨0, 0, 1⟩ sceneMirror =
      ⟨true, ⟨0, 0, 9⟩, ⟨0, 0, -1⟩, 1.9999, matGlass⟩ := by
  have hA : slabA.rayIntersect ⟨0, 0, (7.0001 : ℝ)⟩ ⟨0, 0, 1⟩ = Intersect.empty := by
    simp only [slabA]
    exact zslab_up_miss 4 5 7.0001 matGlass (by norm_num) (by norm_num)
  have hB : slabB.rayIntersect ⟨0, 0, (7.0001 : ℝ)⟩ ⟨0, 0, 1⟩ = Intersect.empty := by
    simp only [slabB]
    exact zslab_up_miss 6 7 7.0001 matGlass (by norm_num) (by norm_num)
  have hC : slabC.rayIntersect ⟨0, 0, (7.0001 : ℝ)⟩ ⟨0, 0, 1⟩ =
      ⟨true, ⟨0, 0, 9⟩, ⟨0, 0, -1⟩, 1.9999, matGlass⟩ := by
    simp only [slabC]
    rw [zslab_up_hit 9 10 7.0001 matGlass (by norm_num) (by norm_num)]
    norm_num
  rw [nearestHit, sceneMirror]
  simp only [List.foldl_cons, List.foldl_nil]
  rw [scanStep_skip _ _ slabA (by rw [hA]; simp [Intersect.empty])]
  rw [scanStep_skip _ _ slabB (by rw [hB]; simp [Intersect.empty])]
  rw [scanStep_update _ _ _ _ _ hC rfl (by norm_num [FP.lt])]

theorem scan69999dn :
    nearestHit ⟨0, 0, (6.9999 : ℝ)⟩ ⟨0, 0, -1⟩ sceneMirror =
      ⟨true, ⟨0, 0, 5⟩, ⟨0, 0, 1⟩, 1.9999, matGlass⟩ := by
  have hA : slabA.rayIntersect ⟨0, 0, (6.9999 : ℝ)⟩ ⟨0, 0, -1⟩ =
      ⟨true, ⟨0, 0, 5⟩, ⟨0, 0, 1⟩, 1.9999, matGlass⟩ := by
    simp only [slabA]
    rw [zslab_down_hit 4 5 6.9999 matGlass (by norm_num) (by norm_num)]
    norm_num
  have hB : slabB.rayIntersect ⟨0, 0, (6.9999 : ℝ)⟩ ⟨0, 0, -1⟩ = Intersect.empty := by
    simp only [slabB]
    exact zslab_down_miss 6 7 6.9999 matGlass (by norm_num) (by norm_num)
  have hC : slabC.rayIntersect ⟨0, 0, (6.9999 : ℝ)⟩ ⟨0, 0, -1⟩ = Intersect.empty := by
    simp only [slabC]
    exact zslab_down_miss 9 10 6.9999 matGlass (by norm_num) (by norm_num)
  rw [nearestHit, sceneMirror]
  simp only [List.foldl_cons, List.foldl_nil]
  rw [scanStep_update _ _ _ _ _ hA rfl (by norm_num [FP.lt])]
  rw [scanStep_skip _ _ slabB (by rw [hB]; simp [Intersect.empty])]
  rw [scanStep_skip _ _ slabC (by rw [hC]; simp [Intersect.empty])]

theorem scan89999dn :
    nearestHit ⟨0, 0, (8.9999 : ℝ)⟩ ⟨0, 0, -1⟩ sceneMirror =
      ⟨true, ⟨0, 0, 7⟩, ⟨0, 0, 1⟩, 1.9999, matGlass⟩ := by
  have hA : slabA.rayIntersect ⟨0, 0, (8.9999 : ℝ)⟩ ⟨0, 0, -1⟩ =
      ⟨true, ⟨0, 0, 5⟩, ⟨0, 0, 1⟩, 3.9999, matGlass⟩ := by
    simp only [slabA]
    rw [zslab_down_hit 4 5 8.9999 matGlass (by norm_num) (by norm_num)]
    norm_num
  have hB : slabB.rayIntersect ⟨0, 0, (8.9999 : ℝ)⟩ ⟨0, 0, -1⟩ =
      ⟨true, ⟨0, 0, 7⟩, ⟨0, 0, 1⟩, 1.9999, matGlass⟩ := by
    simp only [slabB]
    rw [zslab_down_hit 6 7 8.9999 matGlass (by norm_num) (by norm_num)]
    norm_num
  have hC : slabC.rayIntersect ⟨0, 0, (8.9999 : ℝ)⟩ ⟨0, 0, -1⟩ = Intersect.empty := by
    simp only [slabC]
    exact zslab_down_miss 9 10 8.9999 matGlass (by norm_num) (by norm_num)
  rw [nearestHit, sceneMirror]
  simp only [List.foldl_cons, List.foldl_nil]
  rw [scanStep_update _ _ _ _ _ hA rfl (by norm_num [FP.lt])]
  rw [scanStep_update _ _ _ _ _ hB rfl (by norm_num [FP.lt])]
  rw [scanStep_skip _ _ slabC (by rw [hC]; simp [Intersect.empty])]

theorem scan90001up :
    nearestHit ⟨0, 0, (9.0001 : ℝ)⟩ ⟨0, 0, 1⟩ sceneMirror = Intersect.empty := by
  have hA : slabA.rayIntersect ⟨0, 0, (9.0001 : ℝ)⟩ ⟨0, 0, 1⟩ = Intersect.empty := by
    simp only [slabA]
    exact zslab_up_miss 4 5 9.0001 matGlass (by norm_num) (by norm_num)
  have hB : slabB.rayIntersect ⟨0, 0, (9.0001 : ℝ)⟩ ⟨0, 0, 1⟩ = Intersect.empty := by
    simp only [slabB]
    exact zslab_up_miss 6 7 9.0001 matGlass (by norm_num) (by norm_num)
  have hC : slabC.rayIntersect ⟨0, 0, (9.0001 : ℝ)⟩ ⟨0, 0, 1⟩ = Intersect.empty := by
    simp only [slabC]
    exact zslab_up_miss 9 10 9.0001 matGlass (by norm_num) (by norm_num)
  rw [nearestHit, sceneMirror]
  simp only [List.foldl_cons, List.foldl_nil]
  rw [scanStep_skip _ _ slabA (by rw [hA]; simp [Intersect.empty])]
  rw [scanStep_skip _ _ slabB (by rw [hB]; simp [Intersect.empty])]
  rw [scanStep_skip _ _ slabC (by rw [hC]; simp [Intersect.empty])]

theorem scan50001up :
    nearestHit ⟨0, 0, (5.0001 : ℝ)⟩ ⟨0, 0, 1⟩ sceneMirror =
      ⟨true, ⟨0, 0, 6⟩, ⟨0, 0, -1⟩, 0.9999, matGlass⟩ := by
  have hA : slabA.rayIntersect ⟨0, 0, (5.0001 : ℝ)⟩ ⟨0, 0, 1⟩ = Intersect.empty := by
    simp only [slabA]
    exact zslab_up_miss 4 5 5.0001 matGlass (by norm_num) (by norm_num)
  have hB : slabB.rayIntersect ⟨0, 0, (5.0001 : ℝ)⟩ ⟨0, 0, 1⟩ =
      ⟨true, ⟨0, 0, 6⟩, ⟨0, 0, -1⟩, 0.9999, matGlass⟩ := by
    simp only [slabB]
    rw [zslab_up_hit 6 7 5.0001 matGlass (by norm_num) (by norm_num)]
    norm_num
  have hC : slabC.rayIntersect ⟨0, 0, (5.0001 : ℝ)⟩ ⟨0, 0, 1⟩ =
      ⟨true, ⟨0, 0, 9⟩, ⟨0, 0, -1⟩, 3.9999, matGlass⟩ := by
    simp only [slabC]
    rw [zslab_up_hit 9 10 5.0001 matGlass (by norm_num) (by norm_num)]
    norm_num
  rw [nearestHit, sceneMirror]
  simp only [List.foldl_cons, List.foldl_nil]
  rw [scanStep_skip _ _ slabA (by rw [hA]; simp [Intersect.empty])]
  rw [scanStep_update _ _ _ _ _ hB rfl (by norm_num [FP.lt])]
  rw [scanStep_keep _ _ _ _ _ hC (by norm_num [FP.lt])]

theorem scan49999dn :
    nearestHit ⟨0, 0, (4.9999 : ℝ)⟩ ⟨0, 0, -1⟩ sceneMirror = Intersect.empty := by
  have hA : slabA.rayIntersect ⟨0, 0, (4.9999 : ℝ)⟩ ⟨0, 0, -1⟩ = Intersect.empty := by
    simp only [slabA]
    exact zslab_down_miss 4 5 4.9999 matGlass (by norm_num) (by norm_num)
  have hB : slabB.rayIntersect ⟨0, 0, (4.9999 : ℝ)⟩ ⟨0, 0, -1⟩ = Intersect.empty := by
    simp only [slabB]
    exact zslab_down_miss 6 7 4.9999 matGlass (by norm_num) (by norm_num)
  have hC : slabC.rayIntersect ⟨0, 0, (4.9999 : ℝ)⟩ ⟨0, 0, -1⟩ = Intersect.empty := by
    simp only [slabC]
    exact zslab_down_miss 9 10 4.9999 matGlass (by norm_num) (by norm_num)
  rw [nearestHit, sceneMirror]
  simp only [List.foldl_cons, List.foldl_nil]
  rw [scanStep_skip _ _ slabA (by rw [hA]; simp [Intersect.empty])]
  rw [scanStep_skip _ _ slabB (by rw [hB]; simp [Intersect.empty])]
  rw [scanStep_skip _ _ slabC (by rw [hC]; simp [Intersect.empty])]

theorem scan59999dn :
    nearestHit ⟨0, 0, (5.9999 : ℝ)⟩ ⟨0, 0, -1⟩ sceneMirror =
      ⟨true, ⟨0, 0, 5⟩, ⟨0, 0, 1⟩, 0.9999, matGlass⟩ := by
  have hA : slabA.rayIntersect ⟨0, 0, (5.9999 : ℝ)⟩ ⟨0, 0, -1⟩ =
      ⟨true, ⟨0, 0, 5⟩, ⟨0, 0, 1⟩, 0.9999, matGlass⟩ := by
    simp only [slabA]
    rw [zslab_down_hit 4 5 5.9999 matGlass (by norm_num) (by norm_num)]
    norm_num
  have hB : slabB.rayIntersect ⟨0, 0, (5.9999 : ℝ)⟩ ⟨0, 0, -1⟩ = Intersect.empty := by
    simp only [slabB]
    exact zslab_down_miss 6 7 5.9999 matGlass (by norm_num) (by norm_num)
  have hC : slabC.rayIntersect ⟨0, 0, (5.9999 : ℝ)⟩ ⟨0, 0, -1⟩ = Intersect.empty := by
    simp only [slabC]
    exact zslab_down_miss 9 10 5.9999 matGlass (by norm_num) (by norm_num)
  rw [nearestHit, sceneMirror]
  simp only [List.foldl_cons, List.foldl_nil]
  rw [scanStep_update _ _ _ _ _ hA rfl (by norm_num [FP.lt])]
  rw [scanStep_skip _ _ slabB (by rw [hB]; simp [Intersect.empty])]
  rw [scanStep_skip _ _ slabC (by rw [hC]; simp [Intersect.empty])]

theorem scan60001up :
    nearestHit ⟨0, 0, (6.0001 : ℝ)⟩ ⟨0, 0, 1⟩ sceneMirror =
      ⟨true, ⟨0, 0, 9⟩, ⟨0, 0, -1⟩, 2.9999, matGlass⟩ := by
  have hA : slabA.rayIntersect ⟨0, 0, (6.0001 : ℝ)⟩ ⟨0, 0, 1⟩ = Intersect.empty := by
    simp only [slabA]
    exact zslab_up_miss 4 5 6.0001 matGlass (by norm_num) (by norm_num)
  have hB : slabB.rayIntersect ⟨0, 0, (6.0001 : ℝ)⟩ ⟨0, 0, 1⟩ = Intersect.empty := by
    simp only [slabB]
    exact zslab_up_miss 6 7 6.0001 matGlass (by norm_num) (by norm_num)
  have hC : slabC.rayIntersect ⟨0, 0, (6.0001 : ℝ)⟩ ⟨0, 0, 1⟩ =
      ⟨true, ⟨0, 0, 9⟩, ⟨0, 0, -1⟩, 2.9999, matGlass⟩ := by
    simp only [slabC]
    rw [zslab_up_hit 9 10 6.0001 matGlass (by norm_num) (by norm_num)]
    norm_num
  rw [nearestHit, sceneMirror]
  simp only [List.foldl_cons, List.foldl_nil]
  rw [scanStep_skip _ _ slabA (by rw [hA]; simp [Intersect.empty])]
  rw [scanStep_skip _ _ slabB (by rw [hB]; simp [Intersect.empty])]
  rw [scanStep_update _ _ _ _ _ hC rfl (by norm_num [FP.lt])]

theorem reflN_dn : (reflect ⟨0, 0, -1⟩ ⟨0, 0, 1⟩).normalize = ⟨0, 0, 1⟩ := by
  have h1 : reflect ⟨0, 0, -1⟩ ⟨0, 0, 1⟩ = (⟨0, 0, 1⟩ : Vec3) := by
    norm_num [reflect, Vec3.dot, Vec3.smul_def, Vec3.sub_def]
  rw [h1]
  norm_num [Vec3.normalize, Vec3.mag, Vec3.dot, Vec3.smul, Real.sqrt_one]

theorem reflN_up : (reflect ⟨0, 0, 1⟩ ⟨0, 0, -1⟩).normalize = ⟨0, 0, -1⟩ := by
  have h1 : reflect ⟨0, 0, 1⟩ ⟨0, 0, -1⟩ = (⟨0, 0, -1⟩ : Vec3) := by
    norm_num [reflect, Vec3.dot, Vec3.smul_def, Vec3.sub_def]
  rw [h1]
  norm_num [Vec3.normalize, Vec3.mag, Vec3.dot, Vec3.smul, Real.sqrt_one]

theorem refr_dn : refract ⟨0, 0, -1⟩ ⟨0, 0, 1⟩ matGlass.refractiveIndex = ⟨0, 0, -1⟩ := by
  have hc : refractCosi ⟨0, 0, -1⟩ ⟨0, 0, 1⟩ = 1 := by
    norm_num [refractCosi, Vec3.dot]
  have hk : refractK ⟨0, 0, -1⟩ ⟨0, 0, 1⟩ matGlass.refractiveIndex = 1 := by
    norm_num [refractK, refractEta, refractNCosi, hc, matGlass]
  rw [refract, if_neg (by rw [hk]; norm_num), hk]
  norm_num [refractEta, refractNCosi, refractNormal, hc, matGlass, Real.sqrt_one,
    Vec3.smul_def, Vec3.add_def]

theorem refr_up : refract ⟨0, 0, 1⟩ ⟨0, 0, -1⟩ matGlass.refractiveIndex = ⟨0, 0, 1⟩ := by
  have hc : refractCosi ⟨0, 0, 1⟩ ⟨0, 0, -1⟩ = 1 := by
    norm_num [refractCosi, Vec3.dot]
  have hk : refractK ⟨0, 0, 1⟩ ⟨0, 0, -1⟩ matGlass.refractiveIndex = 1 := by
    norm_num [refractK, refractEta, refractNCosi, hc, matGlass]
  rw [refract, if_neg (by rw [hk]; norm_num), hk]
  norm_num [refractEta, refractNCosi, refractNormal, hc, matGlass, Real.sqrt_one,
    Vec3.smul_def, Vec3.add_def]

theorem off7out (t : ℝ) :
    offsetOrigin ⟨true, ⟨0, 0, 7⟩, ⟨0, 0, 1⟩, t, matGlass⟩ ⟨0, 0, 1⟩ =
      ⟨0, 0, 7.0001⟩ := by
  rw [offsetOrigin, if_neg (by norm_num [Vec3.dot])]
  norm_num [ORIGIN_BIAS, Vec3.smul_def, Vec3.add_def]

theorem off7in (t : ℝ) :
    offsetOrigin ⟨true, ⟨0, 0, 7⟩, ⟨0, 0, 1⟩, t, matGlass⟩ ⟨0, 0, -1⟩ =
      ⟨0, 0, 6.9999⟩ := by
  rw [offsetOrigin, if_pos (by norm_num [Vec3.dot])]
  norm_num [ORIGIN_BIAS, Vec3.smul_def, Vec3.sub_def]

theorem off5out (t : ℝ) :
    offsetOrigin ⟨true, ⟨0, 0, 5⟩, ⟨0, 0, 1⟩, t, matGlass⟩ ⟨0, 0, 1⟩ =
      ⟨0, 0, 5.0001⟩ := by
  rw [offsetOrigin, if_neg (by norm_num [Vec3.dot])]
  norm_num [ORIGIN_BIAS, Vec3.smul_def, Vec3.add_def]

theorem off5in (t : ℝ) :
    offsetOrigin ⟨true, ⟨0, 0, 5⟩, ⟨0, 0, 1⟩, t, matGlass⟩ ⟨0, 0, -1⟩ =
      ⟨0, 0, 4.9999⟩ := by
  rw [offsetOrigin, if_pos (by norm_num [Vec3.dot])]
  norm_num [ORIGIN_BIAS, Vec3.smul_def, Vec3.sub_def]

theorem off9out (t : ℝ) :
    offsetOrigin ⟨true, ⟨0, 0, 9⟩, ⟨0, 0, -1⟩, t, matGlass⟩ ⟨0, 0, -1⟩ =
      ⟨0, 0, 8.9999⟩ := by
  rw [offsetOrigin, if_neg (by norm_num [Vec3.dot])]
  norm_num [ORIGIN_BIAS, Vec3.smul_def, Vec3.add_def]

theorem off9in (t : ℝ) :
    offsetOrigin ⟨true, ⟨0, 0, 9⟩, ⟨0, 0, -1⟩, t, matGlass⟩ ⟨0, 0, 1⟩ =
      ⟨0, 0, 9.0001⟩ := by
  rw [offsetOrigin, if_pos (by norm_num [Vec3.dot])]
  norm_num [ORIGIN_BIAS, Vec3.smul_def, Vec3.sub_def]

theorem off6out (t : ℝ) :
    offsetOrigin ⟨true, ⟨0, 0, 6⟩, ⟨0, 0, -1⟩, t, matGlass⟩ ⟨0, 0, -1⟩ =
      ⟨0, 0, 5.9999⟩ := by
  rw [offsetOrigin, if_neg (by norm_num [Vec3.dot])]
  norm_num [ORIGIN_BIAS, Vec3.smul_def, Vec3.add_def]

theorem off6in (t : ℝ) :
    offsetOrigin ⟨true, ⟨0, 0, 6⟩, ⟨0, 0, -1⟩, t, matGlass⟩ ⟨0, 0, 1⟩ =
      ⟨0, 0, 6.0001⟩ := by
  rw [offsetOrigin, if_pos (by norm_num [Vec3.dot])]
  norm_num [ORIGIN_BIAS, Vec3.smul_def, Vec3.sub_def]

theorem calls2_d3 :
    castRayCalls ⟨0, 0, (7.0001 : ℝ)⟩ ⟨0, 0, 1⟩ sceneMirror lightC7 3 = 2 := by
  rw [castRayCalls_hit ⟨0, 0, (7.0001 : ℝ)⟩ ⟨0, 0, 1⟩ sceneMirror lightC7 3 _
    (by norm_num) scan70001up rfl]
  rw [castRayCalls_guard _ _ _ _ 4 (by norm_num), castRayCalls_guard _ _ _ _ 4 (by norm_num)]
  norm_num [matGlass]

theorem calls3_d3 :
    castRayCalls ⟨0, 0, (6.9999 : ℝ)⟩ ⟨0, 0, -1⟩ sceneMirror lightC7 3 = 2 := by
  rw [castRayCalls_hit ⟨0, 0, (6.9999 : ℝ)⟩ ⟨0, 0, -1⟩ sceneMirror lightC7 3 _
    (by norm_num) scan69999dn rfl]
  rw [castRayCalls_guard _ _ _ _ 4 (by norm_num), castRayCalls_guard _ _ _ _ 4 (by norm_num)]
  norm_num [matGlass]

theorem calls8_d3 :
    castRayCalls ⟨0, 0, (5.9999 : ℝ)⟩ ⟨0, 0, -1⟩ sceneMirror lightC7 3 = 2 := by
  rw [castRayCalls_hit ⟨0, 0, (5.9999 : ℝ)⟩ ⟨0, 0, -1⟩ sceneMirror lightC7 3 _
    (by norm_num) scan59999dn rfl]
  rw [castRayCalls_guard _ _ _ _ 4 (by norm_num), castRayCalls_guard _ _ _ _ 4 (by norm_num)]
  norm_num [matGlass]

theorem calls9_d3 :
    castRayCalls ⟨0, 0, (6.0001 : ℝ)⟩ ⟨0, 0, 1⟩ sceneMirror lightC7 3 = 2 := by
  rw [castRayCalls_hit ⟨0, 0, (6.0001 : ℝ)⟩ ⟨0, 0, 1⟩ sceneMirror lightC7 3 _
    (by norm_num) scan60001up rfl]
  rw [castRayCalls_guard _ _ _ _ 4 (by norm_num), castRayCalls_guard _ _ _ _ 4 (by norm_num)]
  norm_num [matGlass]

theorem calls5_d2 :
    castRayCalls ⟨0, 0, (9.0001 : ℝ)⟩ ⟨0, 0, 1⟩ sceneMirror lightC7 2 = 0 :=
  castRayCalls_miss _ _ _ _ 2 (by rw [scan90001up]; rfl)

theorem calls7_d2 :
    castRayCalls ⟨0, 0, (4.9999 : ℝ)⟩ ⟨0, 0, -1⟩ sceneMirror lightC7 2 = 0 :=
  castRayCalls_miss _ _ _ _ 2 (by rw [scan49999dn]; rfl)

theorem calls4_d2 :
    castRayCalls ⟨0, 0, (8.9999 : ℝ)⟩ ⟨0, 0, -1⟩ sceneMirror lightC7 2 = 6 := by
  rw [castRayCalls_hit ⟨0, 0, (8.9999 : ℝ)⟩ ⟨0, 0, -1⟩ sceneMirror lightC7 2 _
    (by norm_num) scan89999dn rfl]
  dsimp only
  rw [reflN_dn, refr_dn, off7out, off7in, calls2_d3, calls3_d3]
  norm_num [matGlass]

theorem calls6_d2 :
    castRayCalls ⟨0, 0, (5.0001 : ℝ)⟩ ⟨0, 0, 1⟩ sceneMirror lightC7 2 = 6 := by
  rw [castRayCalls_hit ⟨0, 0, (5.0001 : ℝ)⟩ ⟨0, 0, 1⟩ sceneMirror lightC7 2 _
    (by norm_num) scan50001up rfl]
  dsimp only
  rw [reflN_up, refr_up, off6out, off6in, calls8_d3, calls9_d3]
  norm_num [matGlass]

theorem calls2_d1 :
    castRayCalls ⟨0, 0, (7.0001 : ℝ)⟩ ⟨0, 0, 1⟩ sceneMirror lightC7 1 = 8 := by
  rw [castRayCalls_hit ⟨0, 0, (7.0001 : ℝ)⟩ ⟨0, 0, 1⟩ sceneMirror lightC7 1 _
    (by norm_num) scan70001up rfl]
  dsimp only
  rw [reflN_up, refr_up, off9out, off9in, calls4_d2, calls5_d2]
  norm_num [matGlass]

theorem calls3_d1 :
    castRayCalls ⟨0, 0, (6.9999 : ℝ)⟩ ⟨0, 0, -1⟩ sceneMirror lightC7 1 = 8 := by
  rw [castRayCalls_hit ⟨0, 0, (6.9999 : ℝ)⟩ ⟨0, 0, -1⟩ sceneMirror lightC7 1 _
    (by norm_num) scan69999dn rfl]
  dsimp only
  rw [reflN_dn, refr_dn, off5out, off5in, calls6_d2, calls7_d2]
  norm_num [matGlass]

theorem calls1_d0 :
    castRayCalls ⟨0, 0, (8.5 : ℝ)⟩ ⟨0, 0, -1⟩ sceneMirror lightC7 0 = 18 := by
  rw [castRayCalls_hit ⟨0, 0, (8.5 : ℝ)⟩ ⟨0, 0, -1⟩ sceneMirror lightC7 0 _
    (by norm_num) scan85dn rfl]
  dsimp only
  rw [reflN_dn, refr_dn, off7out, off7in, calls2_d1, calls3_d1]
  norm_num [matGlass]

/-- C7 counterexample: on the three-slab mirror-and-glass scene the
primary ray from `(0,0,8.5)` toward `(0,0,-1)` causes 18 recursive
invocations of `cast_ray` — more than the 15 the claim allows. -/
theorem castRayCalls_exceeds_fifteen :
    castRayCalls ⟨0, 0, (8.5 : ℝ)⟩ ⟨0, 0, -1⟩ sceneMirror lightC7 0 = 18 ∧
      15 < castRayCalls ⟨0, 0, (8.5 : ℝ)⟩ ⟨0, 0, -1⟩ sceneMirror lightC7 0 :=
  ⟨calls1_d0, by rw [calls1_d0]; norm_num⟩

